import Mathlib

/-!
Verification of the SentinelOne Singularity Terraform provider core:
the REST pagination client (FindPackages / FindGroups / FindSites), the
error-classification path of client.do, the get-by-id operations, the
query-parameter serializers, the package download routine and the
package_download resource lifecycle (ModifyPlan / Update / Delete).

The Go source is shallowly embedded: pure logic is translated directly,
and every I/O effect (HTTP transport, filesystem calls) is supplied as an
explicit outcome in an environment record, so control flow and the
sequence of performed side effects can be reasoned about.  Fallible Go
operations (paging for ever, nil-pointer dereference, out-of-range
indexing) are modelled with Option: a `none` result marks a panic or
non-termination of the original code.
-/

namespace S1

/-- One user-facing diagnostic, as appended by diag.Diagnostics.AddError
(summary and detail strings). -/
structure Diagnostic where
  summary : String
  detail : String
deriving DecidableEq, Repr

/-- The accumulated error diagnostics of an operation (warnings are not
modelled; the source only ever adds errors on these paths). -/
abbrev Diagnostics := List Diagnostic

/-- api.apiError from internal/api/response.go: a single structured error
inside the response envelope. -/
structure apiError where
  code : Int
  detail : String
  title : String
deriving DecidableEq, Repr

/-- api.pagination from internal/api/response.go. -/
structure pagination where
  totalItems : Int
  nextCursor : String
deriving DecidableEq, Repr

/-- Go json.Unmarshal semantics for the nextCursor field: an omitted field
leaves the zero value "", and an explicit empty string also decodes to "".
This is the decoding step that makes absence and the empty string
indistinguishable to the drain loops. -/
def decodeNextCursor : Option String → String
  | none => ""
  | some s => s

/-- api.packageAccount from internal/api (package file). -/
structure packageAccount where
  Id : String
  Name : String
deriving DecidableEq, Repr, Inhabited

/-- api.packageSite from internal/api (package file). -/
structure packageSite where
  Id : String
  Name : String
deriving DecidableEq, Repr, Inhabited

/-- api.Package from internal/api (package file): the API model for a
package. -/
structure Package where
  Accounts : List packageAccount
  CreatedAt : String
  FileExtension : String
  FileName : String
  FileSize : Int
  Id : String
  Link : String
  MajorVersion : String
  MinorVersion : String
  OSArch : String
  OSType : String
  PackageType : String
  PlatformType : String
  RangerVersion : String
  ScopeLevel : String
  SHA1 : String
  Sites : List packageSite
  Status : String
  UpdatedAt : String
  Version : String
deriving DecidableEq, Repr, Inhabited

/-- api.Group from internal/api/client.go (group section): the API model
for a group.  The Go field `Type` is rendered as `GroupType` because
`Type` is reserved in Lean. -/
structure Group where
  CreatedAt : String
  Creator : String
  CreatorId : String
  Description : String
  FilterId : String
  FilterName : String
  Id : String
  Inherits : Bool
  IsDefault : Bool
  Name : String
  Rank : Int
  RegistrationToken : String
  SiteId : String
  TotalAgents : Int
  GroupType : String
  UpdatedAt : String
deriving DecidableEq, Repr, Inhabited

/-- api.siteLicenseBundleSurface from internal/api/site.go. -/
structure siteLicenseBundleSurface where
  Count : Int
  Name : String
deriving DecidableEq, Repr, Inhabited

/-- api.siteLicenseBundle from internal/api/site.go. -/
structure siteLicenseBundle where
  DisplayName : String
  MajorVersion : Int
  MinorVersion : Int
  Name : String
  Surfaces : List siteLicenseBundleSurface
  TotalSurfaces : Int
deriving DecidableEq, Repr, Inhabited

/-- api.siteLicenseModule from internal/api/site.go. -/
structure siteLicenseModule where
  DisplayName : String
  MajorVersion : Int
  Name : String
deriving DecidableEq, Repr, Inhabited

/-- api.siteLicenseSetting from internal/api/site.go. -/
structure siteLicenseSetting where
  GroupName : String
  Setting : String
  SettingGroupDisplayName : String
deriving DecidableEq, Repr, Inhabited

/-- api.siteLicense from internal/api/site.go. -/
structure siteLicense where
  Bundles : List siteLicenseBundle
  Modules : List siteLicenseModule
  Settings : List siteLicenseSetting
deriving DecidableEq, Repr, Inhabited

/-- api.Site from internal/api/site.go: the API model for a site. -/
structure Site where
  AccountId : String
  AccountName : String
  ActiveLicenses : Int
  CreatedAt : String
  Creator : String
  CreatorId : String
  Description : String
  Expiration : String
  ExternalId : String
  Id : String
  IsDefault : Bool
  Licenses : siteLicense
  Name : String
  RegistrationToken : String
  SiteType : String
  State : String
  TotalLicenses : Int
  UnlimitedExpiration : Bool
  UnlimitedLicenses : Bool
  UpdatedAt : String
deriving DecidableEq, Repr, Inhabited

/-- One transport response to a page request inside a find loop: either
client.Get returned error diagnostics, or it returned an envelope whose
Data field json.Unmarshal-s (Except = unmarshal outcome) to a typed item
list, together with the decoded pagination.nextCursor. -/
inductive PageResult (α : Type) where
  | httpErr (d : Diagnostics)
  | page (decoded : Except String (List α)) (nextCursor : String)

/-- The shared loop body of FindPackages (package file lines 105-137),
FindGroups (client.go group section lines 355-387) and FindSites
(site.go lines 88-120).  The transport is keyed by the cursor currently
stored in the query parameters (none before the first page, exactly the
previous page's nextCursor afterwards).  `parseMsg` renders the
unmarshal-failure message of the particular entity kind.  `fuel` bounds
the modelled iterations of the unbounded Go for-loop: a `none` result
means the loop did not terminate within `fuel` pages. -/
def findLoop (parseMsg : String → String) (fetch : Option String → PageResult α) :
    Nat → Option String → List α → Option (Except Diagnostics (List α))
  | 0, _, _ => none
  | fuel + 1, cursor, acc =>
    match fetch cursor with
    | .httpErr d => some (.error d)
    | .page (.error e) _ => some (.error [⟨"API Response Error", parseMsg e⟩])
    | .page (.ok items) next =>
      if next = "" then some (.ok (acc ++ items))
      else findLoop parseMsg fetch fuel (some next) (acc ++ items)

/-- Unmarshal-failure message of FindPackages. -/
def pkgFindParseMsg (e : String) : String :=
  "An unexpected error occurred while parsing the response from the API Server into a " ++
    "list of Package objects.\n\nError: " ++ e

/-- Unmarshal-failure message of FindGroups. -/
def grpFindParseMsg (e : String) : String :=
  "An unexpected error occurred while parsing the response from the API Server into a " ++
    "list of Group objects.\n\nError: " ++ e

/-- Unmarshal-failure message of FindSites. -/
def siteFindParseMsg (e : String) : String :=
  "An unexpected error occurred while parsing the response from the API Server into a " ++
    "list of Site objects.\n\nError: " ++ e

/-- client.FindPackages: drains /update/agent/packages pages.  The decoded
page of a successful response is the []Package unmarshalled from Data. -/
def FindPackages (fetch : Option String → PageResult Package) (fuel : Nat) :
    Option (Except Diagnostics (List Package)) :=
  findLoop pkgFindParseMsg fetch fuel none []

/-- client.FindGroups: drains /groups pages. -/
def FindGroups (fetch : Option String → PageResult Group) (fuel : Nat) :
    Option (Except Diagnostics (List Group)) :=
  findLoop grpFindParseMsg fetch fuel none []

/-- client.FindSites: drains /sites pages.  In the source each page
unmarshals to the Sites wrapper and contributes page.Sites; the transport
model hands over that item list directly. -/
def FindSites (fetch : Option String → PageResult Site) (fuel : Nat) :
    Option (Except Diagnostics (List Site)) :=
  findLoop siteFindParseMsg fetch fuel none []

/-- The transport serves, starting from request cursor `cur`, a finite
chain of successful pages: each page decodes to its item list, each
non-final page carries a non-empty nextCursor naming the next request, and
the final page carries the empty cursor. -/
inductive PageChain (fetch : Option String → PageResult α) :
    Option String → List (List α) → Prop where
  | last {cur : Option String} {items : List α} :
      fetch cur = .page (.ok items) "" → PageChain fetch cur [items]
  | step {cur : Option String} {items : List α} {next : String} {rest : List (List α)} :
      fetch cur = .page (.ok items) next → next ≠ "" →
      PageChain fetch (some next) rest → PageChain fetch cur (items :: rest)

/-- The transport serves, starting from request cursor `cur`, exactly `n`
successful pages followed by a failing page: either client.Get itself
fails with diagnostics `d`, or the page body fails to unmarshal (the
resulting single parse diagnostic is `d`). -/
inductive PageChainErr (parseMsg : String → String)
    (fetch : Option String → PageResult α) :
    Option String → Nat → Diagnostics → Prop where
  | hereHttp {cur : Option String} {d : Diagnostics} :
      fetch cur = .httpErr d → PageChainErr parseMsg fetch cur 0 d
  | hereParse {cur : Option String} {e : String} {next : String} :
      fetch cur = .page (.error e) next →
      PageChainErr parseMsg fetch cur 0 [⟨"API Response Error", parseMsg e⟩]
  | step {cur : Option String} {items : List α} {next : String} {n : Nat}
      {d : Diagnostics} :
      fetch cur = .page (.ok items) next → next ≠ "" →
      PageChainErr parseMsg fetch (some next) n d →
      PageChainErr parseMsg fetch cur (n + 1) d

theorem findLoop_chain {α : Type} (parseMsg : String → String)
    {fetch : Option String → PageResult α} {cur : Option String}
    {pages : List (List α)} (h : PageChain fetch cur pages) :
    ∀ fuel acc, pages.length ≤ fuel →
      findLoop parseMsg fetch fuel cur acc = some (.ok (acc ++ pages.flatten)) := by
  induction h with
  | last hf =>
    intro fuel acc hlen
    match fuel, hlen with
    | fuel + 1, _ => simp [findLoop, hf]
  | @step cur items next rest hf hne htail ih =>
    intro fuel acc hlen
    match fuel, hlen with
    | fuel + 1, hlen =>
      have hrec := ih fuel (acc ++ items) (Nat.le_of_succ_le_succ hlen)
      simp only [findLoop, hf, if_neg hne]
      rw [hrec]
      simp

theorem findLoop_chainErr {α : Type} (parseMsg : String → String)
    {fetch : Option String → PageResult α} {cur : Option String}
    {n : Nat} {d : Diagnostics} (h : PageChainErr parseMsg fetch cur n d) :
    ∀ fuel acc, n < fuel →
      findLoop parseMsg fetch fuel cur acc = some (.error d) := by
  induction h with
  | hereHttp hf =>
    intro fuel acc hlen
    match fuel, hlen with
    | fuel + 1, _ => simp [findLoop, hf]
  | hereParse hf =>
    intro fuel acc hlen
    match fuel, hlen with
    | fuel + 1, _ => simp [findLoop, hf]
  | @step cur items next n d hf hne htail ih =>
    intro fuel acc hlen
    match fuel, hlen with
    | fuel + 1, hlen =>
      have hrec := ih fuel (acc ++ items) (Nat.lt_of_succ_lt_succ hlen)
      simp only [findLoop, hf, if_neg hne]
      exact hrec

/-- C1: for every sequence of response pages produced by the transport, the
find operations (FindPackages, FindGroups, FindSites) return the
concatenation of all pages decoded items in original order, requesting the
next page with the server-provided cursor until a page whose next_cursor is
the empty string (an omitted next_cursor field and an explicit empty string
decode identically), and failing the whole operation with no partial result
on the first page that yields an error. -/
theorem find_operations_drain_fully :
    (∀ (fetch : Option String → PageResult Package) (pages : List (List Package)) (fuel : Nat),
        PageChain fetch none pages → pages.length ≤ fuel →
        FindPackages fetch fuel = some (.ok pages.flatten)) ∧
    (∀ (fetch : Option String → PageResult Group) (pages : List (List Group)) (fuel : Nat),
        PageChain fetch none pages → pages.length ≤ fuel →
        FindGroups fetch fuel = some (.ok pages.flatten)) ∧
    (∀ (fetch : Option String → PageResult Site) (pages : List (List Site)) (fuel : Nat),
        PageChain fetch none pages → pages.length ≤ fuel →
        FindSites fetch fuel = some (.ok pages.flatten)) ∧
    decodeNextCursor none = decodeNextCursor (some "") ∧
    (∀ (fetch : Option String → PageResult Package) (n : Nat) (d : Diagnostics) (fuel : Nat),
        PageChainErr pkgFindParseMsg fetch none n d → n < fuel →
        FindPackages fetch fuel = some (.error d)) ∧
    (∀ (fetch : Option String → PageResult Group) (n : Nat) (d : Diagnostics) (fuel : Nat),
        PageChainErr grpFindParseMsg fetch none n d → n < fuel →
        FindGroups fetch fuel = some (.error d)) ∧
    (∀ (fetch : Option String → PageResult Site) (n : Nat) (d : Diagnostics) (fuel : Nat),
        PageChainErr siteFindParseMsg fetch none n d → n < fuel →
        FindSites fetch fuel = some (.error d)) := by
  refine ⟨?_, ?_, ?_, rfl, ?_, ?_, ?_⟩
  · intro fetch pages fuel hc hlen
    simpa [FindPackages] using findLoop_chain pkgFindParseMsg hc fuel [] hlen
  · intro fetch pages fuel hc hlen
    simpa [FindGroups] using findLoop_chain grpFindParseMsg hc fuel [] hlen
  · intro fetch pages fuel hc hlen
    simpa [FindSites] using findLoop_chain siteFindParseMsg hc fuel [] hlen
  · intro fetch n d fuel hc hlen
    simpa [FindPackages] using findLoop_chainErr pkgFindParseMsg hc fuel [] hlen
  · intro fetch n d fuel hc hlen
    simpa [FindGroups] using findLoop_chainErr grpFindParseMsg hc fuel [] hlen
  · intro fetch n d fuel hc hlen
    simpa [FindSites] using findLoop_chainErr siteFindParseMsg hc fuel [] hlen

/-- Sample packages for concrete transports. -/
def pkg1 : Package := { (default : Package) with Id := "p1" }

/-- Second sample package. -/
def pkg2 : Package := { (default : Package) with Id := "p2" }

/-- Third sample package. -/
def pkg3 : Package := { (default : Package) with Id := "p3" }

/-- Sample group. -/
def grp1 : Group := { (default : Group) with Id := "g1" }

/-- Second sample group. -/
def grp2 : Group := { (default : Group) with Id := "g2" }

/-- Sample site. -/
def site1 : Site := { (default : Site) with Id := "s1" }

/-- Second sample site. -/
def site2 : Site := { (default : Site) with Id := "s2" }

/-- A fake package transport serving 3 pages chained by cursors c1, c2, "". -/
def pkgFetch3 : Option String → PageResult Package
  | none => .page (.ok [pkg1]) "c1"
  | some "c1" => .page (.ok [pkg2]) "c2"
  | some "c2" => .page (.ok [pkg3]) ""
  | some _ => .httpErr []

/-- A fake group transport serving 2 pages chained by cursor c1. -/
def grpFetch2 : Option String → PageResult Group
  | none => .page (.ok [grp1]) "c1"
  | some "c1" => .page (.ok [grp2]) ""
  | some _ => .httpErr []

/-- A fake site transport serving 2 pages chained by cursor c1. -/
def siteFetch2 : Option String → PageResult Site
  | none => .page (.ok [site1]) "c1"
  | some "c1" => .page (.ok [site2]) ""
  | some _ => .httpErr []

/-- A fake package transport whose second page fails at the HTTP layer. -/
def pkgFetchErr : Option String → PageResult Package
  | none => .page (.ok [pkg1]) "c1"
  | _ => .httpErr [⟨"API Request Error", "connection refused"⟩]

/-- Witness for C1 at concrete fake transports: a 3-page package drain, a
2-page group drain, a 2-page site drain, and a drain failing on page 2. -/
theorem find_operations_drain_fully_witness :
    FindPackages pkgFetch3 3 = some (.ok [pkg1, pkg2, pkg3]) ∧
    FindGroups grpFetch2 2 = some (.ok [grp1, grp2]) ∧
    FindSites siteFetch2 2 = some (.ok [site1, site2]) ∧
    FindPackages pkgFetchErr 9 =
      some (.error [⟨"API Request Error", "connection refused"⟩]) := by
  refine ⟨?_, ?_, ?_, ?_⟩
  · have h := find_operations_drain_fully.1 pkgFetch3 [[pkg1], [pkg2], [pkg3]] 3
      (.step rfl (by decide) (.step rfl (by decide) (.last rfl))) (by decide)
    simpa using h
  · have h := find_operations_drain_fully.2.1 grpFetch2 [[grp1], [grp2]] 2
      (.step rfl (by decide) (.last rfl)) (by decide)
    simpa using h
  · have h := find_operations_drain_fully.2.2.1 siteFetch2 [[site1], [site2]] 2
      (.step rfl (by decide) (.last rfl)) (by decide)
    simpa using h
  · have h := find_operations_drain_fully.2.2.2.2.1 pkgFetchErr 1
      [⟨"API Request Error", "connection refused"⟩] 9
      (.step rfl (by decide) (.hereHttp rfl)) (by decide)
    simpa using h

theorem str_append_assoc (a b c : String) : a ++ b ++ c = a ++ (b ++ c) := by
  apply String.ext
  simp

/-- Generic error message of client.do when the body is unparsable or the
envelope carries no structured errors (client.go lines 199-201). -/
def genericRespMsg (url method : String) (statusCode : Int) (respBody : String) : String :=
  "The request to the API server returned a non-successful error code.\n\nURL: " ++ url ++
    "\nMethod: " ++ method ++ "\nHTTP Status Code: " ++ toString statusCode ++
    "\nResponse: " ++ respBody ++ "\n"

/-- The generic diagnostic added by client.do on a status >= 400 response
without usable structured errors. -/
def genericRespDiag (url method : String) (statusCode : Int) (respBody : String) : Diagnostic :=
  ⟨"API Response Error", genericRespMsg url method statusCode respBody⟩

/-- Per-structured-error message of client.do (client.go lines 210-212),
carrying the server-provided code, title (Summary) and detail (Details). -/
def apiErrorMsg (url method : String) (statusCode : Int) (e : apiError) : String :=
  "The request to the API server returned a non-successful error code.\n\nURL: " ++ url ++
    "\nMethod: " ++ method ++ "\nHTTP Status Code: " ++ toString statusCode ++
    "\nAPI Code: " ++ toString e.code ++ "\nSummary: " ++ e.title ++
    "\nDetails: " ++ e.detail

/-- The diagnostic client.do adds for one structured API error. -/
def apiErrorDiag (url method : String) (statusCode : Int) (e : apiError) : Diagnostic :=
  ⟨"API Response Error", apiErrorMsg url method statusCode e⟩

/-- The part of api.apiResponse the error branch of client.do consumes:
the decoded errors list. -/
structure apiResponseErr where
  errors : List apiError
deriving DecidableEq, Repr

/-- client.do classification of a status >= 400 response (client.go lines
194-222).  `parsed` is the json.Unmarshal outcome of the body into
apiResponse (none = unmarshal error); the Go guard
unmarshalErr != nil || result.Errors == nil || len(result.Errors) == 0
collapses to the isEmpty test since a nil slice and an empty slice agree. -/
def doErrorDiagnostics (url method : String) (statusCode : Int) (respBody : String)
    (parsed : Option apiResponseErr) : Diagnostics :=
  match parsed with
  | none => [genericRespDiag url method statusCode respBody]
  | some result =>
    if result.errors.isEmpty then [genericRespDiag url method statusCode respBody]
    else result.errors.map (apiErrorDiag url method statusCode)

/-- client.do outcome after the HTTP round-trip executed (client.go lines
161-224), given the response status, the body text and the envelope-parse
outcome: status below 400 hands the open response back to the caller,
status 400 or above closes the body and returns the classified error
diagnostics. -/
def clientDo (url method : String) (statusCode : Int) (respBody : String)
    (parsed : Option apiResponseErr) : Except Diagnostics Unit :=
  if 400 ≤ statusCode then
    .error (doErrorDiagnostics url method statusCode respBody parsed)
  else .ok ()

/-- C2: for every request whose HTTP status is >= 400: if the body parses
as the envelope with N >= 1 structured errors, client.do returns exactly N
error diagnostics, each embedding that errors code, title and detail; if
the body is unparsable or the errors list is empty, it returns exactly one
generic diagnostic embedding the HTTP status code and the raw body text;
in both cases the diagnostics are non-empty (never silently dropped). -/
theorem do_error_classification (url method : String) (statusCode : Int)
    (respBody : String) (parsed : Option apiResponseErr)
    (hst : 400 ≤ statusCode) :
    (∀ r, parsed = some r → r.errors ≠ [] →
      clientDo url method statusCode respBody parsed =
        .error (r.errors.map (apiErrorDiag url method statusCode)) ∧
      (r.errors.map (apiErrorDiag url method statusCode)).length = r.errors.length ∧
      ∀ e ∈ r.errors, ∃ s₁ s₂ s₃,
        (apiErrorDiag url method statusCode e).detail =
          s₁ ++ (toString e.code ++ (s₂ ++ (e.title ++ (s₃ ++ e.detail))))) ∧
    ((parsed = none ∨ ∃ r, parsed = some r ∧ r.errors = []) →
      ∃ s₁ s₂ s₃,
        clientDo url method statusCode respBody parsed =
          .error [⟨"API Response Error",
            s₁ ++ (toString statusCode ++ (s₂ ++ (respBody ++ s₃)))⟩]) ∧
    (∃ d, clientDo url method statusCode respBody parsed = .error d ∧ d ≠ []) := by
  refine ⟨?_, ?_, ?_⟩
  · intro r hr hne
    subst hr
    refine ⟨?_, by simp, ?_⟩
    · simp [clientDo, hst, doErrorDiagnostics, List.isEmpty_iff, hne]
    · intro e he
      refine ⟨"The request to the API server returned a non-successful error code.\n\nURL: " ++
        url ++ "\nMethod: " ++ method ++ "\nHTTP Status Code: " ++ toString statusCode ++
        "\nAPI Code: ", "\nSummary: ", "\nDetails: ", ?_⟩
      simp only [apiErrorDiag, apiErrorMsg, str_append_assoc]
  · intro hcase
    refine ⟨"The request to the API server returned a non-successful error code.\n\nURL: " ++
      url ++ "\nMethod: " ++ method ++ "\nHTTP Status Code: ", "\nResponse: ", "\n", ?_⟩
    rcases hcase with h | ⟨r, hr, hre⟩
    · subst h
      simp only [clientDo, if_pos hst, doErrorDiagnostics, genericRespDiag,
        genericRespMsg, str_append_assoc]
    · subst hr
      simp only [clientDo, if_pos hst, doErrorDiagnostics, genericRespDiag,
        genericRespMsg, hre, List.isEmpty_nil, if_pos, str_append_assoc]
  · refine ⟨doErrorDiagnostics url method statusCode respBody parsed,
      by simp [clientDo, hst], ?_⟩
    unfold doErrorDiagnostics
    match parsed with
    | none => simp
    | some r =>
      by_cases h : r.errors.isEmpty <;>
        simp_all [List.isEmpty_iff]

/-- The spec test response: HTTP 422 with two structured errors. -/
def resp422 : apiResponseErr :=
  ⟨[⟨4000010, "invalid filter value", "Validation Error"⟩,
    ⟨4000020, "unknown site id", "Validation Error"⟩]⟩

/-- Witness for C2 at the spec test input: a 422 response carrying 2
structured errors yields exactly those 2 diagnostics, and a 422 response
with an unparsable body yields exactly one generic diagnostic. -/
theorem do_error_classification_witness :
    clientDo "https://x/web/api/v2.1/groups" "GET" 422 "raw" (some resp422) =
      .error (resp422.errors.map (apiErrorDiag "https://x/web/api/v2.1/groups" "GET" 422)) ∧
    (resp422.errors.map (apiErrorDiag "https://x/web/api/v2.1/groups" "GET" 422)).length = 2 ∧
    (∃ d, clientDo "https://x/web/api/v2.1/groups" "GET" 422 "raw" none = .error d ∧ d ≠ []) := by
  have h := do_error_classification "https://x/web/api/v2.1/groups" "GET" 422 "raw"
    (some resp422) (by decide)
  have h1 := h.1 resp422 rfl (by decide)
  exact ⟨h1.1, rfl, (do_error_classification
    "https://x/web/api/v2.1/groups" "GET" 422 "raw" none (by decide)).2.2⟩

/-- The api.apiResponse envelope as consumed by the get-by-id operations:
the pagination block plus the json.Unmarshal outcome of the opaque Data
field into the typed entity slice (the Except models the deferred parse). -/
structure getResponse (α : Type) where
  pagination : pagination
  data : Except String (List α)
deriving Repr

/-- GetPackage not-found message. -/
def pkgNotFoundMsg : String :=
  "No matching package was found. Try expanding your search or check that your package ID is valid."

/-- GetPackage multiple-found message. -/
def pkgMultipleMsg (totalItems : Int) : String :=
  "This data source expects 1 matching package but " ++ toString totalItems ++
    " were found. Please narrow your search."

/-- GetPackage unmarshal-failure message. -/
def pkgGetParseMsg (e : String) : String :=
  "An unexpected error occurred while parsing the response from the API Server into a " ++
    "Package object.\n\nError: " ++ e

/-- client.GetPackage (package file lines 140-184): queries ids=id, decides
cardinality from pagination.totalItems, then parses Data and returns
&pkgs[0].  The outer Option marks the Go panic of indexing an empty slice:
`none` means neither an entity nor a diagnostic is produced. -/
def GetPackage (getRes : Except Diagnostics (getResponse Package)) :
    Option (Except Diagnostics Package) :=
  match getRes with
  | .error d => some (.error d)
  | .ok result =>
    let totalItems := result.pagination.totalItems
    if totalItems = 0 then
      some (.error [⟨"Package Not Found", pkgNotFoundMsg⟩])
    else if 1 < totalItems then
      some (.error [⟨"Multiple Packages Found", pkgMultipleMsg totalItems⟩])
    else
      match result.data with
      | .error e => some (.error [⟨"API Response Error", pkgGetParseMsg e⟩])
      | .ok [] => none
      | .ok (p :: _) => some (.ok p)

/-- GetSite not-found message. -/
def siteNotFoundMsg : String :=
  "No matching site was found. Try expanding your search or check that your site ID is valid."

/-- GetSite multiple-found message. -/
def siteMultipleMsg (totalItems : Int) : String :=
  "This data source expects 1 matching site but " ++ toString totalItems ++
    " were found. Please narrow your search."

/-- GetSite unmarshal-failure message. -/
def siteGetParseMsg (e : String) : String :=
  "An unexpected error occurred while parsing the response from the API Server into a " ++
    "Site object.\n\nError: " ++ e

/-- client.GetSite (site.go lines 123-167), same exactly-one protocol as
GetPackage. -/
def GetSite (getRes : Except Diagnostics (getResponse Site)) :
    Option (Except Diagnostics Site) :=
  match getRes with
  | .error d => some (.error d)
  | .ok result =>
    let totalItems := result.pagination.totalItems
    if totalItems = 0 then
      some (.error [⟨"Site Not Found", siteNotFoundMsg⟩])
    else if 1 < totalItems then
      some (.error [⟨"Multiple Sites Found", siteMultipleMsg totalItems⟩])
    else
      match result.data with
      | .error e => some (.error [⟨"API Response Error", siteGetParseMsg e⟩])
      | .ok [] => none
      | .ok (s :: _) => some (.ok s)

/-- GetGroup not-found message. -/
def grpNotFoundMsg : String :=
  "No matching group was found. Try expanding your search or check that your group ID is valid."

/-- GetGroup multiple-found message. -/
def grpMultipleMsg (totalItems : Int) : String :=
  "This data source expects 1 matching group but " ++ toString totalItems ++
    " were found. Please narrow your search."

/-- GetGroup unmarshal-failure message. -/
def grpGetParseMsg (e : String) : String :=
  "An unexpected error occurred while parsing the response from the API Server into a " ++
    "Group object.\n\nError: " ++ e

/-- client.GetGroup (client.go lines 390-434), same exactly-one protocol as
GetPackage. -/
def GetGroup (getRes : Except Diagnostics (getResponse Group)) :
    Option (Except Diagnostics Group) :=
  match getRes with
  | .error d => some (.error d)
  | .ok result =>
    let totalItems := result.pagination.totalItems
    if totalItems = 0 then
      some (.error [⟨"Group Not Found", grpNotFoundMsg⟩])
    else if 1 < totalItems then
      some (.error [⟨"Multiple Groups Found", grpMultipleMsg totalItems⟩])
    else
      match result.data with
      | .error e => some (.error [⟨"API Response Error", grpGetParseMsg e⟩])
      | .ok [] => none
      | .ok (g :: _) => some (.ok g)

/-- C3: for every get-by-id response, cardinality zero yields the
not-found error, cardinality above one yields the multiple-found error,
and cardinality exactly one whose data holds that single entity returns
it unwrapped with no error, for GetPackage, GetSite and GetGroup alike. -/
theorem get_by_id_exactly_one (rp : getResponse Package) (rs : getResponse Site)
    (rg : getResponse Group) :
    (rp.pagination.totalItems = 0 →
      GetPackage (.ok rp) = some (.error [⟨"Package Not Found", pkgNotFoundMsg⟩])) ∧
    (1 < rp.pagination.totalItems →
      GetPackage (.ok rp) =
        some (.error [⟨"Multiple Packages Found", pkgMultipleMsg rp.pagination.totalItems⟩])) ∧
    (∀ p, rp.pagination.totalItems = 1 → rp.data = .ok [p] →
      GetPackage (.ok rp) = some (.ok p)) ∧
    (rs.pagination.totalItems = 0 →
      GetSite (.ok rs) = some (.error [⟨"Site Not Found", siteNotFoundMsg⟩])) ∧
    (1 < rs.pagination.totalItems →
      GetSite (.ok rs) =
        some (.error [⟨"Multiple Sites Found", siteMultipleMsg rs.pagination.totalItems⟩])) ∧
    (∀ s, rs.pagination.totalItems = 1 → rs.data = .ok [s] →
      GetSite (.ok rs) = some (.ok s)) ∧
    (rg.pagination.totalItems = 0 →
      GetGroup (.ok rg) = some (.error [⟨"Group Not Found", grpNotFoundMsg⟩])) ∧
    (1 < rg.pagination.totalItems →
      GetGroup (.ok rg) =
        some (.error [⟨"Multiple Groups Found", grpMultipleMsg rg.pagination.totalItems⟩])) ∧
    (∀ g, rg.pagination.totalItems = 1 → rg.data = .ok [g] →
      GetGroup (.ok rg) = some (.ok g)) := by
  refine ⟨?_, ?_, ?_, ?_, ?_, ?_, ?_, ?_, ?_⟩
  · intro h
    simp [GetPackage, h]
  · intro h
    have h0 : ¬rp.pagination.totalItems = 0 := by omega
    simp [GetPackage, h0, h]
  · intro p h1 h2
    simp [GetPackage, h1, h2]
  · intro h
    simp [GetSite, h]
  · intro h
    have h0 : ¬rs.pagination.totalItems = 0 := by omega
    simp [GetSite, h0, h]
  · intro s h1 h2
    simp [GetSite, h1, h2]
  · intro h
    simp [GetGroup, h]
  · intro h
    have h0 : ¬rg.pagination.totalItems = 0 := by omega
    simp [GetGroup, h0, h]
  · intro g h1 h2
    simp [GetGroup, h1, h2]

/-- Witness for C3 at concrete envelopes: 0 items is not-found, 2 items is
multiple-found, 1 item is returned unwrapped (exercised on all three
entity kinds). -/
theorem get_by_id_exactly_one_witness :
    GetPackage (.ok ⟨⟨0, ""⟩, .ok []⟩) =
      some (.error [⟨"Package Not Found", pkgNotFoundMsg⟩]) ∧
    GetPackage (.ok ⟨⟨2, ""⟩, .ok [pkg1, pkg2]⟩) =
      some (.error [⟨"Multiple Packages Found", pkgMultipleMsg 2⟩]) ∧
    GetPackage (.ok ⟨⟨1, ""⟩, .ok [pkg1]⟩) = some (.ok pkg1) ∧
    GetSite (.ok ⟨⟨1, ""⟩, .ok [site1]⟩) = some (.ok site1) ∧
    GetGroup (.ok ⟨⟨1, ""⟩, .ok [grp1]⟩) = some (.ok grp1) := by
  have hp := get_by_id_exactly_one ⟨⟨0, ""⟩, .ok []⟩ ⟨⟨1, ""⟩, .ok [site1]⟩
    ⟨⟨1, ""⟩, .ok [grp1]⟩
  have hp2 := get_by_id_exactly_one ⟨⟨2, ""⟩, .ok [pkg1, pkg2]⟩ ⟨⟨1, ""⟩, .ok [site1]⟩
    ⟨⟨1, ""⟩, .ok [grp1]⟩
  have hp1 := get_by_id_exactly_one ⟨⟨1, ""⟩, .ok [pkg1]⟩ ⟨⟨1, ""⟩, .ok [site1]⟩
    ⟨⟨1, ""⟩, .ok [grp1]⟩
  exact ⟨hp.1 rfl, hp2.2.1 (by decide), hp1.2.2.1 pkg1 rfl rfl,
    hp1.2.2.2.2.2.1 site1 rfl rfl, hp1.2.2.2.2.2.2.2.2 grp1 rfl rfl⟩

/-- C10: the get-by-id operations decide cardinality solely from
pagination.totalItems, not from the decoded data length: with totalItems 1
and an empty data array the indexing of element 0 is out of bounds and
neither an entity nor a diagnostic is produced (modelled as none), while a
totalItems of 0 or 2 is reported regardless of the actual data length. -/
theorem get_by_id_trusts_totalItems :
    GetPackage (.ok ⟨⟨1, ""⟩, .ok []⟩) = none ∧
    GetSite (.ok ⟨⟨1, ""⟩, .ok []⟩) = none ∧
    GetGroup (.ok ⟨⟨1, ""⟩, .ok []⟩) = none ∧
    GetPackage (.ok ⟨⟨0, ""⟩, .ok [pkg1]⟩) =
      some (.error [⟨"Package Not Found", pkgNotFoundMsg⟩]) ∧
    GetPackage (.ok ⟨⟨2, ""⟩, .ok [pkg1]⟩) =
      some (.error [⟨"Multiple Packages Found", pkgMultipleMsg 2⟩]) := by
  refine ⟨rfl, rfl, rfl, rfl, ?_⟩
  simp [GetPackage]

/-- One `if len(list) > 0 { m[key] = strings.Join(list, ",") }` step of a
toStringMap serializer.  Go map writes are modelled as ordered key/value
pairs; every serializer writes each key at most once, so the list is a
faithful map. -/
def addList (m : List (String × String)) (key : String) (vs : List String) :
    List (String × String) :=
  if 0 < vs.length then m ++ [(key, String.intercalate "," vs)] else m

/-- One `if ptr != nil { m[key] = *ptr }` step for a string field. -/
def addOpt (m : List (String × String)) (key : String) (v : Option String) :
    List (String × String) :=
  match v with
  | some s => m ++ [(key, s)]
  | none => m

/-- One `if ptr != nil { m[key] = fmt.Sprintf("%t", *ptr) }` step. -/
def addOptBool (m : List (String × String)) (key : String) (v : Option Bool) :
    List (String × String) :=
  match v with
  | some b => m ++ [(key, if b then "true" else "false")]
  | none => m

/-- One `if ptr != nil { m[key] = fmt.Sprintf("%d", *ptr) }` step. -/
def addOptInt (m : List (String × String)) (key : String) (v : Option Int) :
    List (String × String) :=
  match v with
  | some n => m ++ [(key, toString n)]
  | none => m

/-- api.PackageQueryParams (package file lines 187-203); pointer fields are
Options, slice fields are lists. -/
structure PackageQueryParams where
  accountIds : List String
  fileExtension : Option String
  ids : List String
  minorVersion : Option String
  osArches : List String
  osTypes : List String
  packageTypes : List String
  platformTypes : List String
  rangerVersion : Option String
  sha1 : Option String
  siteIds : List String
  sortBy : Option String
  sortOrder : Option String
  status : List String
  version : Option String
deriving Repr

/-- PackageQueryParams.toStringMap (package file lines 206-254): one key
per set field, list fields comma-joined, unset fields omitted. -/
def PackageQueryParams.toStringMap (p : PackageQueryParams) : List (String × String) :=
  let m := addList [] "accountIds" p.accountIds
  let m := addOpt m "fileExtension" p.fileExtension
  let m := addList m "ids" p.ids
  let m := addOpt m "minorVersion" p.minorVersion
  let m := addList m "osArches" p.osArches
  let m := addList m "osTypes" p.osTypes
  let m := addList m "packageTypes" p.packageTypes
  let m := addList m "platformTypes" p.platformTypes
  let m := addOpt m "rangerVersion" p.rangerVersion
  let m := addOpt m "sha1" p.sha1
  let m := addList m "siteIds" p.siteIds
  let m := addOpt m "sortBy" p.sortBy
  let m := addOpt m "sortOrder" p.sortOrder
  let m := addList m "status" p.status
  addOpt m "version" p.version

/-- api.GroupQueryParams (client.go lines 437-454). -/
structure GroupQueryParams where
  accountIds : List String
  description : Option String
  groupIds : List String
  isDefault : Option Bool
  name : Option String
  query : Option String
  rank : Option Int
  registrationToken : Option String
  siteIds : List String
  sortBy : Option String
  sortOrder : Option String
  types : List String
  updatedAfter : Option String
  updatedAtOrAfter : Option String
  updatedAtOrBefore : Option String
  updatedBefore : Option String
deriving Repr

/-- GroupQueryParams.toStringMap (client.go lines 457-508).  The source
guards the updatedAt__lte entry on UpdatedAtOrBefore but assigns the
dereferenced value of UpdatedAtOrAfter (line 502); when UpdatedAtOrBefore
is set and UpdatedAtOrAfter is nil this dereference is a nil-pointer
panic, modelled as a none result. -/
def GroupQueryParams.toStringMap (p : GroupQueryParams) :
    Option (List (String × String)) :=
  let m := addList [] "accountIds" p.accountIds
  let m := addOpt m "description" p.description
  let m := addList m "ids" p.groupIds
  let m := addOptBool m "isDefault" p.isDefault
  let m := addOpt m "name" p.name
  let m := addOpt m "query" p.query
  let m := addOptInt m "rank" p.rank
  let m := addOpt m "registrationToken" p.registrationToken
  let m := addList m "siteIds" p.siteIds
  let m := addOpt m "sortBy" p.sortBy
  let m := addOpt m "sortOrder" p.sortOrder
  let m := addList m "types" p.types
  let m := addOpt m "updatedAt__gt" p.updatedAfter
  let m := addOpt m "updatedAt__gte" p.updatedAtOrAfter
  match p.updatedAtOrBefore with
  | none => some (addOpt m "updatedAt__lt" p.updatedBefore)
  | some _ =>
    match p.updatedAtOrAfter with
    | none => none
    | some v => some (addOpt (m ++ [("updatedAt__lte", v)]) "updatedAt__lt" p.updatedBefore)

/-- The all-unset package query. -/
def emptyPackageQueryParams : PackageQueryParams :=
  ⟨[], none, [], none, [], [], [], [], none, none, [], none, none, [], none⟩

/-- The all-unset group query. -/
def emptyGroupQueryParams : GroupQueryParams :=
  ⟨[], none, [], none, none, none, none, none, [], none, none, [], none, none, none, none⟩

/-- C4, decided at the failing input: the all-unset structs serialize to
the empty map and a single 2-element list field serializes to one
comma-joined key, but a GroupQueryParams with only UpdatedAtOrBefore set
does not serialize to the single key updatedAt__lte with that value — the
implementation dereferences the nil UpdatedAtOrAfter pointer (panic,
modelled none), and even with both fields set it emits the
UpdatedAtOrAfter value under updatedAt__lte. -/
theorem groupQueryParams_lte_copy_paste_bug :
    emptyPackageQueryParams.toStringMap = [] ∧
    emptyGroupQueryParams.toStringMap = some [] ∧
    ({ emptyPackageQueryParams with osTypes := ["linux", "macos"] }).toStringMap =
      [("osTypes", "linux,macos")] ∧
    ({ emptyGroupQueryParams with
        updatedAtOrBefore := some "2023-06-01T00:00:00Z" }).toStringMap = none ∧
    ({ emptyGroupQueryParams with
        updatedAtOrAfter := some "2023-01-01T00:00:00Z",
        updatedAtOrBefore := some "2023-06-01T00:00:00Z" }).toStringMap =
      some [("updatedAt__gte", "2023-01-01T00:00:00Z"),
            ("updatedAt__lte", "2023-01-01T00:00:00Z")] :=
  ⟨rfl, rfl, rfl, rfl, rfl⟩

/-- Outcomes of the I/O effects performed by plugin.CreateDirectory,
plugin.CreateFile and client.DownloadPackage, supplied as an explicit
environment.  Each field is the result the corresponding call would
return when (and if) the control flow reaches it. -/
structure dlEnv where
  toAbsRes : Except Diagnostics String
  folderExistsRes : Except Diagnostics Bool
  parseFolderModeRes : Except Diagnostics Unit
  mkdirRes : Except Diagnostics Unit
  fileExistsRes : Except Diagnostics Bool
  createRes : Except Diagnostics Unit
  isWindows : Bool
  parseFileModeRes : Except Diagnostics Unit
  chmodRes : Except Diagnostics Unit
  streamRes : Except Diagnostics Unit
  statRes : Except String Int
  sha1Res : Except Diagnostics String
  getPackageRes : Except Diagnostics Package

/-- plugin.CreateDirectory (util.go lines 20-45): stat the folder; when it
does not exist, parse the folder mode and MkdirAll; an existing folder is
left untouched. -/
def CreateDirectory (env : dlEnv) : Except Diagnostics Unit := do
  let folderExists ← env.folderExistsRes
  if !folderExists then
    let _ ← env.parseFolderModeRes
    let _ ← env.mkdirRes
  return ()

/-- File-exists message of plugin.CreateFile (util.go line 76). -/
def fileExistsMsg (absPath : String) : String :=
  "The destination file already exists and should not be overwritten.\n\nFile: " ++ absPath

/-- plugin.CreateFile (util.go lines 53-117): resolve the path, create the
parent folder, and — only when overwrite is false — stat the destination
and fail with the File Exists diagnostic when it is present, all before
os.Create runs; then create the file and (outside Windows) chmod it.  The
returned Bool records whether os.Create ran successfully, i.e. whether a
(possibly truncated) destination file now exists on disk. -/
def CreateFile (env : dlEnv) (overwrite : Bool) : Except Diagnostics Unit × Bool :=
  match env.toAbsRes with
  | .error d => (.error d, false)
  | .ok absPath =>
    match CreateDirectory env with
    | .error d => (.error d, false)
    | .ok () =>
      match overwrite with
      | false =>
        match env.fileExistsRes with
        | .error d => (.error d, false)
        | .ok true => (.error [⟨"File Exists", fileExistsMsg absPath⟩], false)
        | .ok false => CreateFile.createAndChmod env
      | true => CreateFile.createAndChmod env
where
  /-- The os.Create and chmod tail of CreateFile (util.go lines 86-116). -/
  createAndChmod (env : dlEnv) : Except Diagnostics Unit × Bool :=
    match env.createRes with
    | .error d => (.error d, false)
    | .ok () =>
      if env.isWindows then (.ok (), true)
      else
        match env.parseFileModeRes with
        | .error d => (.error d, true)
        | .ok () =>
          match env.chmodRes with
          | .error d => (.error d, true)
          | .ok () => (.ok (), true)

/-- Stat-failure message of DownloadPackage (package file lines 79-80). -/
def dlStatErrMsg (e absPath : String) : String :=
  "An unexpected error occurred while retrieving information about the package file.\n\n" ++
    "Error: " ++ e ++ "\nFile: " ++ absPath

/-- The observable outcome of client.DownloadPackage: the returned value
(absolute path, byte size, sha1, version) or diagnostics, whether the
destination file is on disk afterwards, and how many transport requests
were issued (GetStream and the GetPackage metadata fetch). -/
structure DownloadOutcome where
  result : Except Diagnostics (String × Int × String × String)
  fileOnDisk : Bool
  transportCalls : Nat
deriving Repr

/-- client.DownloadPackage (package file lines 52-102): resolve the path,
create the destination file, stream the body into it, stat it, hash it and
fetch the package metadata.  Failures of stat, hash and metadata fetch run
os.Remove(absPath) before returning; a GetStream failure returns without
removing the file (source lines 71-73 have no os.Remove).  `preExisting`
is whether the destination file existed before the call. -/
def DownloadPackage (env : dlEnv) (overwrite preExisting : Bool) : DownloadOutcome :=
  match env.toAbsRes with
  | .error d => ⟨.error d, preExisting, 0⟩
  | .ok absPath =>
    match CreateFile env overwrite with
    | (.error d, created) => ⟨.error d, preExisting || created, 0⟩
    | (.ok (), _) =>
      match env.streamRes with
      | .error d => ⟨.error d, true, 1⟩
      | .ok () =>
        match env.statRes with
        | .error e => ⟨.error [⟨"Unexpected Internal Error", dlStatErrMsg e absPath⟩], false, 1⟩
        | .ok size =>
          match env.sha1Res with
          | .error d => ⟨.error d, false, 1⟩
          | .ok sha1 =>
            match env.getPackageRes with
            | .error d => ⟨.error d, false, 2⟩
            | .ok pkg => ⟨.ok (absPath, size, sha1, pkg.Version), true, 2⟩

/-- An environment in which every effect succeeds. -/
def dlEnvOk : dlEnv where
  toAbsRes := .ok "/tmp/pkg.bin"
  folderExistsRes := .ok true
  parseFolderModeRes := .ok ()
  mkdirRes := .ok ()
  fileExistsRes := .ok false
  createRes := .ok ()
  isWindows := false
  parseFileModeRes := .ok ()
  chmodRes := .ok ()
  streamRes := .ok ()
  statRes := .ok 100
  sha1Res := .ok "da39a3ee"
  getPackageRes := .ok pkg1

/-- C5, decided at the failing input: when the destination file was
created and GetStream then fails, DownloadPackage surfaces the error but
leaves the partial file on disk; the stat, hash and metadata-fetch failure
paths do remove it (and the fully successful run keeps it, as expected). -/
theorem downloadPackage_stream_failure_leaves_partial_file :
    (DownloadPackage { dlEnvOk with
        streamRes := .error [⟨"API Response Error", "connection reset"⟩] } true false) =
      ⟨.error [⟨"API Response Error", "connection reset"⟩], true, 1⟩ ∧
    (DownloadPackage { dlEnvOk with statRes := .error "permission denied" }
        true false).fileOnDisk = false ∧
    (DownloadPackage { dlEnvOk with
        sha1Res := .error [⟨"Unexpected Internal Error", "read failed"⟩] }
        true false).fileOnDisk = false ∧
    (DownloadPackage { dlEnvOk with
        getPackageRes := .error [⟨"Package Not Found", pkgNotFoundMsg⟩] }
        true false).fileOnDisk = false ∧
    (DownloadPackage dlEnvOk true false).result =
      .ok ("/tmp/pkg.bin", 100, "da39a3ee", pkg1.Version) :=
  ⟨rfl, rfl, rfl, rfl, rfl⟩

/-- C6: with overwrite=false and an existing destination file (and the
preceding path resolution and folder handling succeeding), DownloadPackage
fails with the File Exists diagnostic and issues zero transport requests. -/
theorem downloadPackage_overwrite_guard (env : dlEnv) (preExisting : Bool)
    (p : String) (h1 : env.toAbsRes = .ok p)
    (h2 : CreateDirectory env = .ok ()) (h3 : env.fileExistsRes = .ok true) :
    (DownloadPackage env false preExisting).result =
      .error [⟨"File Exists", fileExistsMsg p⟩] ∧
    (DownloadPackage env false preExisting).transportCalls = 0 := by
  simp [DownloadPackage, CreateFile, h1, h2, h3]

/-- Witness for C6: a concrete environment whose destination file already
exists; the download fails with File Exists and zero transport calls. -/
theorem downloadPackage_overwrite_guard_witness :
    (DownloadPackage { dlEnvOk with fileExistsRes := .ok true } false true).result =
      .error [⟨"File Exists", fileExistsMsg "/tmp/pkg.bin"⟩] ∧
    (DownloadPackage { dlEnvOk with fileExistsRes := .ok true } false true).transportCalls = 0 :=
  downloadPackage_overwrite_guard { dlEnvOk with fileExistsRes := .ok true } true
    "/tmp/pkg.bin" rfl rfl rfl

/-- A terraform-plugin-framework attribute value: null, unknown, or a
known value (types.String, types.Int64, types.Bool). -/
inductive tfValue (α : Type) where
  | null
  | unknown
  | value (v : α)
deriving DecidableEq, Repr

/-- IsNull of a framework value. -/
def tfValue.isNull : tfValue α → Bool
  | .null => true
  | _ => false

/-- IsUnknown of a framework value. -/
def tfValue.isUnknown : tfValue α → Bool
  | .unknown => true
  | _ => false

/-- ValueString / ValueInt64 / ValueBool: the wrapped value, or the Go
zero value `d` for null and unknown. -/
def tfValue.valueD (d : α) : tfValue α → α
  | .value v => v
  | _ => d

/-- The observable outcome of PackageDownload.ModifyPlan: the attribute
paths appended to resp.RequiresReplace in order, the plan attributes
overwritten via SetAttribute, and the diagnostics. -/
structure ModifyPlanOutcome where
  requiresReplace : List String
  planFileSize : Option Int
  planSha1 : Option String
  diags : Diagnostics
deriving DecidableEq, Repr

/-- PackageDownload.ModifyPlan (package_download.go lines 190-230): when
package_id, file_size and sha1 are all known in state, re-fetch the
package (outcome supplied as getPackageRes) and compare the server
file size and SHA1 against state; each differing field is appended to
RequiresReplace and its plan value refreshed, the matching field is left
alone. -/
def PackageDownload.ModifyPlan (packageId sha1 : tfValue String) (fileSize : tfValue Int)
    (getPackageRes : Except Diagnostics Package) : ModifyPlanOutcome :=
  if !packageId.isNull && !packageId.isUnknown && !fileSize.isNull && !fileSize.isUnknown
      && !sha1.isNull && !sha1.isUnknown then
    match getPackageRes with
    | .error d => ⟨[], none, none, d⟩
    | .ok pkg =>
      let (r1, ps) :=
        if pkg.FileSize ≠ fileSize.valueD 0 then (["file_size"], some pkg.FileSize)
        else ([], none)
      let (r2, ph) :=
        if pkg.SHA1 ≠ sha1.valueD "" then (["sha1"], some pkg.SHA1)
        else ([], none)
      ⟨r1 ++ r2, ps, ph, []⟩
  else ⟨[], none, none, []⟩

/-- C7: when the re-fetched server metadata differs from tracked state in
exactly one fingerprint component, ModifyPlan marks exactly that field for
replacement and leaves the agreeing field unmarked. -/
theorem modifyPlan_marks_only_differing_field (pid trackedSha1 : String)
    (trackedSize : Int) (pkg : Package) :
    (pkg.FileSize = trackedSize → pkg.SHA1 ≠ trackedSha1 →
      PackageDownload.ModifyPlan (.value pid) (.value trackedSha1)
          (.value trackedSize) (.ok pkg) =
        ⟨["sha1"], none, some pkg.SHA1, []⟩) ∧
    (pkg.FileSize ≠ trackedSize → pkg.SHA1 = trackedSha1 →
      PackageDownload.ModifyPlan (.value pid) (.value trackedSha1)
          (.value trackedSize) (.ok pkg) =
        ⟨["file_size"], some pkg.FileSize, none, []⟩) := by
  constructor
  · intro hsz hsha
    simp [PackageDownload.ModifyPlan, tfValue.isNull, tfValue.isUnknown, tfValue.valueD,
      hsz, hsha]
  · intro hsz hsha
    simp [PackageDownload.ModifyPlan, tfValue.isNull, tfValue.isUnknown, tfValue.valueD,
      hsz, hsha]

/-- The spec drift scenario package: server reports sha1 BBB, size 100. -/
def pkgDrift : Package := { (default : Package) with SHA1 := "BBB", FileSize := 100 }

/-- Witness for C7 at the spec scenario: tracked sha1 AAA and size 100,
server sha1 BBB and size 100; only the sha1 field is marked. -/
theorem modifyPlan_marks_only_differing_field_witness :
    PackageDownload.ModifyPlan (.value "pkg-1") (.value "AAA") (.value 100) (.ok pkgDrift) =
      ⟨["sha1"], none, some "BBB", []⟩ :=
  (modifyPlan_marks_only_differing_field "pkg-1" "AAA" 100 pkgDrift).1 rfl (by decide)

/-- The tfPackageDownload terraform model of the package_download
resource (package_download.go lines 36-48). -/
structure tfPackageDownload where
  DirectoryMode : tfValue String
  FileMode : tfValue String
  FileSize : tfValue Int
  LocalFilename : tfValue String
  LocalFolder : tfValue String
  OutputFile : tfValue String
  OverwriteExistingFile : tfValue Bool
  PackageId : tfValue String
  SHA1 : tfValue String
  SiteId : tfValue String
  Version : tfValue String
deriving DecidableEq, Repr

/-- A filesystem syscall issued by the resource lifecycle (logged whether
or not it succeeds). -/
inductive FsAction where
  | mkdirAll (path : String)
  | rename (src dest : String)
  | chmod (path : String) (mode : String)
  | removeFile (path : String)
deriving DecidableEq, Repr

/-- Outcomes of the effects PackageDownload.Update performs. -/
structure updateEnv where
  destPathRes : Except Diagnostics String
  splitFolder : String
  folderExistsRes : Except Diagnostics Bool
  parseFolderModeRes : Except Diagnostics Unit
  mkdirRes : Except Diagnostics Unit
  renameRes : Except String Unit
  parseFileModeRes : Except Diagnostics Unit
  chmodRes : Except String Unit

/-- The observable outcome of Update: the state written back (or the
diagnostics) and the filesystem syscalls issued, in order. -/
structure UpdateOutcome where
  result : Except Diagnostics tfPackageDownload
  actions : List FsAction
deriving Repr

/-- Move-failure message of Update (package_download.go lines 418-419). -/
def updMoveErrMsg (e src dest : String) : String :=
  "An unexpected error occurred while moving the package file.\n\nError: " ++ e ++
    "\nSource: " ++ src ++ "\nDestination: " ++ dest

/-- Chmod-failure message of Update (package_download.go lines 448-449);
the parsed numeric mode rendering is abstracted by the plan mode string. -/
def updChmodErrMsg (e dest mode : String) : String :=
  "An unexpected error occurred while changing permissions on the package file.\n\n" ++
    "Error: " ++ e ++ "\nFile: " ++ dest ++ "\nNew Mode: " ++ mode

/-- plugin.CreateDirectory as called by Update for the destination folder,
with the issued MkdirAll logged. -/
def CreateDirectoryA (env : updateEnv) : Except Diagnostics Unit × List FsAction :=
  match env.folderExistsRes with
  | .error d => (.error d, [])
  | .ok true => (.ok (), [])
  | .ok false =>
    match env.parseFolderModeRes with
    | .error d => (.error d, [])
    | .ok () =>
      match env.mkdirRes with
      | .error d => (.error d, [.mkdirAll env.splitFolder])
      | .ok () => (.ok (), [.mkdirAll env.splitFolder])

/-- The file-mode tail of Update (package_download.go lines 435-462): the
guard only tests that the planned file_mode is a known value — it does not
compare it against the state — and then always parses it and chmods the
destination path. -/
def PackageDownload.Update.chmodStage (plan st : tfPackageDownload) (destPath : String)
    (env : updateEnv) (acts : List FsAction) : UpdateOutcome :=
  if !plan.FileMode.isNull && !plan.FileMode.isUnknown then
    let st := { st with FileMode := plan.FileMode }
    let mode := plan.FileMode.valueD ""
    match env.parseFileModeRes with
    | .error d => ⟨.error d, acts⟩
    | .ok () =>
      match env.chmodRes with
      | .error e =>
        ⟨.error [⟨"Download Package Update Error", updChmodErrMsg e destPath mode⟩],
          acts ++ [.chmod destPath mode]⟩
      | .ok () => ⟨.ok st, acts ++ [.chmod destPath mode]⟩
  else ⟨.ok st, acts⟩

/-- The in-place metadata updates of Update (package_download.go lines
379-398): directory_mode, overwrite flag, local_folder and local_filename
are copied from the plan into the tracked state whenever the planned value
is known.  None of these assignments touches OutputFile, FileMode,
FileSize, SHA1, PackageId, SiteId or Version. -/
def updMetaStage (state plan : tfPackageDownload) : tfPackageDownload :=
  let st := if !plan.DirectoryMode.isNull && !plan.DirectoryMode.isUnknown then
      { state with DirectoryMode := plan.DirectoryMode } else state
  let st := if !plan.OverwriteExistingFile.isNull && !plan.OverwriteExistingFile.isUnknown then
      { st with OverwriteExistingFile := plan.OverwriteExistingFile } else st
  let st := if !plan.LocalFolder.isNull && !plan.LocalFolder.isUnknown then
      { st with LocalFolder := plan.LocalFolder } else st
  if !plan.LocalFilename.isNull && !plan.LocalFilename.isUnknown then
    { st with LocalFilename := plan.LocalFilename } else st

/-- PackageDownload.Update (package_download.go lines 364-470): update the
tracked directory_mode/overwrite flag from the plan, resolve the new
destination path from (possibly planned) folder and filename, move the
file when the destination differs from the tracked output_file (creating
the destination folder first), then re-apply the planned file mode.  The
source reads srcPath from state.OutputFile between the metadata updates;
since none of them assigns OutputFile, reading it after updMetaStage is
identical. -/
def PackageDownload.Update (state plan : tfPackageDownload) (env : updateEnv) :
    UpdateOutcome :=
  let st := updMetaStage state plan
  let srcPath := st.OutputFile.valueD ""
  match env.destPathRes with
  | .error d => ⟨.error d, []⟩
  | .ok destPath =>
    if srcPath = destPath then
      PackageDownload.Update.chmodStage plan st destPath env []
    else
      let st := { st with OutputFile := .value destPath }
      match CreateDirectoryA env with
      | (.error d, acts) => ⟨.error d, acts⟩
      | (.ok (), acts) =>
        match env.renameRes with
        | .error e =>
          ⟨.error [⟨"Download Package Update Error", updMoveErrMsg e srcPath destPath⟩],
            acts ++ [.rename srcPath destPath]⟩
        | .ok () =>
          PackageDownload.Update.chmodStage plan st destPath env
            (acts ++ [.rename srcPath destPath])

/-- The tracked state of the C8 scenario. -/
def st8 : tfPackageDownload where
  DirectoryMode := .value "0755"
  FileMode := .value "0644"
  FileSize := .value 100
  LocalFilename := .value "pkg.bin"
  LocalFolder := .value "/tmp"
  OutputFile := .value "/tmp/pkg.bin"
  OverwriteExistingFile := .value true
  PackageId := .value "pkg-1"
  SHA1 := .value "AAA"
  SiteId := .value "site-1"
  Version := .value "1.0"

/-- The C8 plan: identical to the state except for directory_mode. -/
def pl8 : tfPackageDownload := { st8 with DirectoryMode := .value "0700" }

/-- The C8 environment: the resolved destination equals the tracked
output file and every effect succeeds. -/
def updEnv8 : updateEnv where
  destPathRes := .ok "/tmp/pkg.bin"
  splitFolder := "/tmp/"
  folderExistsRes := .ok true
  parseFolderModeRes := .ok ()
  mkdirRes := .ok ()
  renameRes := .ok ()
  parseFileModeRes := .ok ()
  chmodRes := .ok ()

/-- C8 counterexample: with a plan differing from state only in
directory_mode (folder, filename and file mode unchanged), Update still
issues a filesystem action — it re-applies chmod of the unchanged file
mode to the tracked file — so the update is not filesystem-silent. -/
theorem update_dirmode_only_still_chmods :
    (PackageDownload.Update st8 pl8 updEnv8).actions =
      [.chmod "/tmp/pkg.bin" "0644"] := rfl

/-- C8 amended: for an Update whose resolved destination equals the
tracked output_file (folder and filename unchanged) and whose planned
file_mode is the unchanged known state value, the tracked metadata is
updated (directory_mode and overwrite taken from the plan when known) and
no rename and no directory creation is performed — but one chmod
re-applying the unchanged file mode is issued. -/
theorem update_metadata_only_frame (state plan : tfPackageDownload) (env : updateEnv)
    (m : String) (hdest : env.destPathRes = .ok (state.OutputFile.valueD ""))
    (hsm : state.FileMode = .value m) (hfm : plan.FileMode = .value m)
    (hparse : env.parseFileModeRes = .ok ()) (hchmod : env.chmodRes = .ok ()) :
    (PackageDownload.Update state plan env).actions =
      [.chmod (state.OutputFile.valueD "") m] ∧
    ∃ st, (PackageDownload.Update state plan env).result = .ok st ∧
      st.OutputFile = state.OutputFile ∧
      st.FileSize = state.FileSize ∧
      st.SHA1 = state.SHA1 ∧
      st.PackageId = state.PackageId ∧
      st.SiteId = state.SiteId ∧
      st.FileMode = state.FileMode ∧
      st.DirectoryMode = (if !plan.DirectoryMode.isNull && !plan.DirectoryMode.isUnknown
        then plan.DirectoryMode else state.DirectoryMode) ∧
      st.OverwriteExistingFile =
        (if !plan.OverwriteExistingFile.isNull && !plan.OverwriteExistingFile.isUnknown
          then plan.OverwriteExistingFile else state.OverwriteExistingFile) := by
  have hfields : (updMetaStage state plan).OutputFile = state.OutputFile ∧
      (updMetaStage state plan).FileSize = state.FileSize ∧
      (updMetaStage state plan).SHA1 = state.SHA1 ∧
      (updMetaStage state plan).PackageId = state.PackageId ∧
      (updMetaStage state plan).SiteId = state.SiteId ∧
      (updMetaStage state plan).FileMode = state.FileMode ∧
      (updMetaStage state plan).DirectoryMode =
        (if !plan.DirectoryMode.isNull && !plan.DirectoryMode.isUnknown
          then plan.DirectoryMode else state.DirectoryMode) ∧
      (updMetaStage state plan).OverwriteExistingFile =
        (if !plan.OverwriteExistingFile.isNull && !plan.OverwriteExistingFile.isUnknown
          then plan.OverwriteExistingFile else state.OverwriteExistingFile) := by
    simp only [updMetaStage]
    split <;> split <;> split <;> split <;> simp
  have hchst : ∀ st acts, PackageDownload.Update.chmodStage plan st
      (state.OutputFile.valueD "") env acts =
      ⟨.ok { st with FileMode := plan.FileMode },
        acts ++ [.chmod (state.OutputFile.valueD "") m]⟩ := by
    intro st acts
    simp [PackageDownload.Update.chmodStage, hfm, tfValue.isNull, tfValue.isUnknown,
      tfValue.valueD, hparse, hchmod]
  have hupd : PackageDownload.Update state plan env =
      ⟨.ok { updMetaStage state plan with FileMode := plan.FileMode },
        [.chmod (state.OutputFile.valueD "") m]⟩ := by
    simp only [PackageDownload.Update, hdest, hfields.1, if_true]
    rw [hchst]
    simp [hfields.1]
  refine ⟨by rw [hupd], ⟨{ updMetaStage state plan with FileMode := plan.FileMode },
    by rw [hupd], ?_, ?_, ?_, ?_, ?_, ?_, ?_, ?_⟩⟩
  · exact hfields.1
  · exact hfields.2.1
  · exact hfields.2.2.1
  · exact hfields.2.2.2.1
  · exact hfields.2.2.2.2.1
  · rw [hfm, ← hsm]
  · exact hfields.2.2.2.2.2.2.1
  · exact hfields.2.2.2.2.2.2.2

/-- Witness for C8 at the concrete scenario: a plan changing only
directory_mode yields the metadata-updated state and exactly the one
redundant chmod. -/
theorem update_metadata_only_frame_witness :
    (PackageDownload.Update st8 pl8 updEnv8).actions = [.chmod "/tmp/pkg.bin" "0644"] ∧
    ∃ st, (PackageDownload.Update st8 pl8 updEnv8).result = .ok st ∧
      st.OutputFile = st8.OutputFile ∧ st.FileSize = st8.FileSize ∧
      st.SHA1 = st8.SHA1 ∧ st.PackageId = st8.PackageId ∧ st.SiteId = st8.SiteId ∧
      st.FileMode = st8.FileMode ∧
      st.DirectoryMode = (if !pl8.DirectoryMode.isNull && !pl8.DirectoryMode.isUnknown
        then pl8.DirectoryMode else st8.DirectoryMode) ∧
      st.OverwriteExistingFile =
        (if !pl8.OverwriteExistingFile.isNull && !pl8.OverwriteExistingFile.isUnknown
          then pl8.OverwriteExistingFile else st8.OverwriteExistingFile) :=
  update_metadata_only_frame st8 pl8 updEnv8 "0644" rfl rfl rfl rfl rfl

/-- The outcome of os.Stat on the tracked output file: IsNotExist, another
stat error, a directory, or a regular file. -/
inductive statResult where
  | notExist
  | statErr (e : String)
  | dirInfo
  | fileInfo
deriving DecidableEq, Repr

/-- Outcomes of the effects PackageDownload.Delete performs. -/
structure deleteEnv where
  statRes : statResult
  removeRes : Except String Unit

/-- Stat-failure message of Delete (package_download.go lines 493-494). -/
def delStatErrMsg (e absPath : String) : String :=
  "An unexpected error occurred while attempting to open the package file.\n\n" ++
    "Error: " ++ e ++ "\nFile: " ++ absPath

/-- Directory message of Delete (package_download.go lines 504-506). -/
def delIsDirMsg (absPath : String) : String :=
  "An unexpected error occurred while attempting to remove the package file.\n\n" ++
    "Error: the destination path is a directory, not a file\nFile: " ++ absPath

/-- Remove-failure message of Delete (package_download.go lines 518-519). -/
def delRemoveErrMsg (e absPath : String) : String :=
  "An unexpected error occurred while removing the package file.\n\nError: " ++ e ++
    "\nFile: " ++ absPath

/-- The observable outcome of Delete: diagnostics and the filesystem
syscalls issued. -/
structure DeleteOutcome where
  diags : Diagnostics
  actions : List FsAction
deriving DecidableEq, Repr

/-- PackageDownload.Delete (package_download.go lines 473-530): a null
output_file is a no-op; a missing file (stat IsNotExist) is a no-op
success; a directory or stat failure is a hard error without removal;
only a regular file is removed. -/
def PackageDownload.Delete (state : tfPackageDownload) (env : deleteEnv) : DeleteOutcome :=
  if state.OutputFile.isNull then ⟨[], []⟩
  else
    let absPath := state.OutputFile.valueD ""
    match env.statRes with
    | .notExist => ⟨[], []⟩
    | .statErr e => ⟨[⟨"Download Package Removal Error", delStatErrMsg e absPath⟩], []⟩
    | .dirInfo => ⟨[⟨"Download Package Removal Error", delIsDirMsg absPath⟩], []⟩
    | .fileInfo =>
      match env.removeRes with
      | .error e =>
        ⟨[⟨"Download Package Removal Error", delRemoveErrMsg e absPath⟩],
          [.removeFile absPath]⟩
      | .ok () => ⟨[], [.removeFile absPath]⟩

/-- C9: when the tracked output_file does not exist on disk, Delete
returns success (no diagnostics) and issues no filesystem mutation. -/
theorem delete_missing_file_is_noop (state : tfPackageDownload) (env : deleteEnv)
    (h : env.statRes = .notExist) :
    (PackageDownload.Delete state env).diags = [] ∧
    (PackageDownload.Delete state env).actions = [] := by
  by_cases hn : state.OutputFile.isNull <;> simp [PackageDownload.Delete, h, hn]

/-- Witness for C9 at a concrete state whose tracked path is missing. -/
theorem delete_missing_file_is_noop_witness :
    (PackageDownload.Delete st8 ⟨.notExist, .ok ()⟩).diags = [] ∧
    (PackageDownload.Delete st8 ⟨.notExist, .ok ()⟩).actions = [] :=
  delete_missing_file_is_noop st8 ⟨.notExist, .ok ()⟩ rfl

end S1
